import Mathlib

/-!
Shallow embedding of the spatial quality-control core of the olympian
repository (src/checks/spatial/buddy_check.rs, src/checks/spatial/sct.rs,
src/util/mod.rs, src/util/spatial_tree.rs), together with theorems settling
the specification claims about it.

Modelling conventions:
- f32 values are modelled as rationals.  NaN / infinity cannot arise in this
  model, so is_valid is constantly true; the claims settled here do not hinge
  on non-finite float propagation.
- Transcendental f32 primitives (cos, sin, acos, sqrt, exp, to_radians) and
  the dense matrix inversion are uninterpreted parameters collected in QOps;
  all control flow of the source is kept exactly.  Theorems about control
  flow hold for every choice of QOps.  The law-of-cosines distance is also
  embedded separately over the reals for the claims about it.
- Rust panics (out-of-bounds indexing, unwrap of None) are modelled with
  default values (List.getD / Option.getD); every claim settled below only
  exercises panic-free paths.
- The rstar R-tree query locate_within_distance(point, r) returns the indexed
  points whose SQUARED Euclidean distance to the query point is at most r;
  the tree is modelled as the list of its points, in insertion order.
-/

namespace Olympian

/-- Flag enum from src/util/mod.rs. -/
inductive Flag where
  | Pass
  | Fail
  | Warn
  | Inconclusive
  | Invalid
  | DataMissing
  | Isolated
deriving DecidableEq, Repr

/-- Error enum from src/lib.rs. -/
inductive Error where
  | InvalidInputShape (field : String)
  | InvalidArg (field : String) (reason : String)
deriving DecidableEq, Repr

/-- SingleOrVec from src/util/mod.rs. -/
inductive SingleOrVec (α : Type) where
  | Single (v : α)
  | Vec (v : List α)
deriving DecidableEq, Repr

/-- SingleOrVec::index; Vec indexing out of bounds panics in Rust, modelled
with a default value. -/
def SingleOrVec.index [Inhabited α] : SingleOrVec α → Nat → α
  | SingleOrVec.Single v, _ => v
  | SingleOrVec.Vec v, i => v.getD i default

/-- RADIUS_EARTH constant from src/util/mod.rs (kilometers). -/
def RADIUS_EARTH : ℚ := 6371

/-- is_valid from src/util/mod.rs: true for finite, non-NaN f32.  Rationals
model exactly the finite values, so this is constantly true here. -/
def is_valid (_v : ℚ) : Bool := true

/-- A point stored in the R-tree: 3D coordinates plus the station index
(SpatialPoint = GeomWithData of f32 triple and usize). -/
structure TreePoint where
  geom : ℚ × ℚ × ℚ
  data : Nat
deriving DecidableEq, Repr

/-- SpatialTree from src/util/spatial_tree.rs: the R-tree is modelled as the
list of its points. -/
structure SpatialTree where
  points : List TreePoint
  lats : List ℚ
  lons : List ℚ
  elevs : List ℚ
deriving DecidableEq, Repr

/-- Squared Euclidean distance between two 3D points (rstar distance_2). -/
def dist2 (p q : ℚ × ℚ × ℚ) : ℚ :=
  (p.1 - q.1) ^ 2 + (p.2.1 - q.2.1) ^ 2 + (p.2.2 - q.2.2) ^ 2

/-- rstar RTree::locate_within_distance(point, r): all stored points whose
squared distance to the query point is at most r.  The source passes its
radius argument directly in this position. -/
def locate_within_distance (points : List TreePoint) (p : ℚ × ℚ × ℚ) (r : ℚ) :
    List TreePoint :=
  points.filter (fun tp => decide (dist2 tp.geom p ≤ r))

/-- Body of SpatialTree::get_neighbours after the query point has been
converted to xyz coordinates (src/util/spatial_tree.rs lines 51-68). -/
def get_neighbours_xyz (points : List TreePoint) (q : ℚ × ℚ × ℚ) (radius : ℚ)
    (include_match : Bool) : List TreePoint :=
  let match_list := locate_within_distance points q radius
  match include_match with
  | true => match_list
  | false => match_list.filter (fun tp => decide (tp.geom ≠ q))

/-- Uninterpreted numeric primitives of the source: f32 transcendental
functions and the faer dense matrix inversion.  All control flow below is
parametric in these; a matrix of size n is a function on indices below n. -/
structure QOps where
  cos : ℚ → ℚ
  sin : ℚ → ℚ
  acos : ℚ → ℚ
  sqrt : ℚ → ℚ
  exp : ℚ → ℚ
  to_radians : ℚ → ℚ
  invert : Nat → (Nat → Nat → ℚ) → Nat → Nat → ℚ

/-- convert_coordinates from src/util/mod.rs lines 118-124. -/
def convert_coordinates (ops : QOps) (lat lon : ℚ) : ℚ × ℚ × ℚ :=
  (ops.cos (ops.to_radians lat) * ops.cos (ops.to_radians lon) * RADIUS_EARTH,
   ops.cos (ops.to_radians lat) * ops.sin (ops.to_radians lon) * RADIUS_EARTH,
   ops.sin (ops.to_radians lat) * RADIUS_EARTH)

/-- calc_distance_xyz from src/util/mod.rs lines 156-158. -/
def calc_distance_xyz (ops : QOps) (x0 y0 z0 x1 y1 z1 : ℚ) : ℚ :=
  ops.sqrt ((x0 - x1) * (x0 - x1) + (y0 - y1) * (y0 - y1) + (z0 - z1) * (z0 - z1))

/-- calc_distance from src/util/mod.rs lines 127-153, over the uninterpreted
primitives.  Note the source clamps the law-of-cosines ratio to [0, 1]. -/
def calc_distance (ops : QOps) (lat1 lon1 lat2 lon2 : ℚ) : Except Error ℚ :=
  if |lat1| > 90 ∨ |lat2| > 90 ∨ |lon1| > 360 ∨ |lon2| > 360 then
    Except.error (Error.InvalidArg "latlon" "outside valid range")
  else if lat1 = lat2 ∧ lon1 = lon2 then Except.ok 0
  else
    let lat1r := ops.to_radians lat1
    let lat2r := ops.to_radians lat2
    let lon1r := ops.to_radians lon1
    let lon2r := ops.to_radians lon2
    let ratio := ops.cos lat1r * ops.cos lon1r * ops.cos lat2r * ops.cos lon2r
      + ops.cos lat1r * ops.sin lon1r * ops.cos lat2r * ops.sin lon2r
      + ops.sin lat1r * ops.sin lat2r
    let norm_ratio := if ratio < 0 then 0 else if ratio > 1 then 1 else ratio
    Except.ok (ops.acos norm_ratio * RADIUS_EARTH)

/-- calc_distance from src/util/mod.rs lines 127-153, embedded over the reals
with the exact transcendental functions (f32::to_radians x = x * π / 180).
The ratio is clamped to [0, 1], as in the source. -/
noncomputable def calc_distance_real (lat1 lon1 lat2 lon2 : ℝ) : Except Error ℝ :=
  if |lat1| > 90 ∨ |lat2| > 90 ∨ |lon1| > 360 ∨ |lon2| > 360 then
    Except.error (Error.InvalidArg "latlon" "outside valid range")
  else if lat1 = lat2 ∧ lon1 = lon2 then Except.ok 0
  else
    let lat1r := lat1 * Real.pi / 180
    let lat2r := lat2 * Real.pi / 180
    let lon1r := lon1 * Real.pi / 180
    let lon2r := lon2 * Real.pi / 180
    let ratio := Real.cos lat1r * Real.cos lon1r * Real.cos lat2r * Real.cos lon2r
      + Real.cos lat1r * Real.sin lon1r * Real.cos lat2r * Real.sin lon2r
      + Real.sin lat1r * Real.sin lat2r
    let norm_ratio := if ratio < 0 then 0 else if ratio > 1 then 1 else ratio
    Except.ok (Real.arccos norm_ratio * 6371)

/-- The distance computation as the specification words it: identical to
calc_distance_real except that the ratio is clamped to [-1, 1] before acos. -/
noncomputable def calc_distance_spec_clamp (lat1 lon1 lat2 lon2 : ℝ) : Except Error ℝ :=
  if |lat1| > 90 ∨ |lat2| > 90 ∨ |lon1| > 360 ∨ |lon2| > 360 then
    Except.error (Error.InvalidArg "latlon" "outside valid range")
  else if lat1 = lat2 ∧ lon1 = lon2 then Except.ok 0
  else
    let lat1r := lat1 * Real.pi / 180
    let lat2r := lat2 * Real.pi / 180
    let lon1r := lon1 * Real.pi / 180
    let lon2r := lon2 * Real.pi / 180
    let ratio := Real.cos lat1r * Real.cos lon1r * Real.cos lat2r * Real.cos lon2r
      + Real.cos lat1r * Real.sin lon1r * Real.cos lat2r * Real.sin lon2r
      + Real.sin lat1r * Real.sin lat2r
    let norm_ratio := if ratio < -1 then -1 else if ratio > 1 then 1 else ratio
    Except.ok (Real.arccos norm_ratio * 6371)

/-- SpatialTree::get_neighbours (src/util/spatial_tree.rs lines 51-68): the
query position is converted with convert_coordinates and the tree is queried
with the radius argument passed directly to locate_within_distance. -/
def SpatialTree.get_neighbours (tree : SpatialTree) (ops : QOps) (lat lon radius : ℚ)
    (include_match : Bool) : List TreePoint :=
  get_neighbours_xyz tree.points (convert_coordinates ops lat lon) radius include_match

/-- SpatialTree::get_neighbours_with_distance (src/util/spatial_tree.rs lines
70-91): distances are Euclidean, recomputed from the lats/lons arrays. -/
def SpatialTree.get_neighbours_with_distance (tree : SpatialTree) (ops : QOps)
    (lat lon radius : ℚ) (include_match : Bool) : List TreePoint × List ℚ :=
  let points := tree.get_neighbours ops lat lon radius include_match
  let q := convert_coordinates ops lat lon
  let distances := points.map (fun p =>
    let c := convert_coordinates ops (tree.lats.getD p.data 0) (tree.lons.getD p.data 0)
    calc_distance_xyz ops q.1 q.2.1 q.2.2 c.1 c.2.1 c.2.2)
  (points, distances)

/-- SpatialTree::get_coords_at_index (src/util/spatial_tree.rs lines 93-95). -/
def SpatialTree.get_coords_at_index (tree : SpatialTree) (i : Nat) : ℚ × ℚ × ℚ :=
  (tree.lats.getD i 0, tree.lons.getD i 0, tree.elevs.getD i 0)

/-- Stable ascending sort, modelling Vec::sort_by with f32::total_cmp. -/
def sort_total (l : List ℚ) : List ℚ := l.insertionSort (fun a b => a ≤ b)

/-- compute_quantile from src/checks/spatial/sct.rs lines 108-141.  The
usize casts of floor/ceil saturate at 0 for negative arguments, which
Int.toNat reproduces.  Out-of-bounds indexing (impossible for quantile
arguments in [0, 1]) is modelled by List.getD. -/
def compute_quantile (quantile : ℚ) (array : List ℚ) : ℚ :=
  let new_array := sort_total (array.filter (fun x => is_valid x))
  let n := new_array.length
  let lower_index := Int.toNat ⌊quantile * ((n - 1 : Nat) : ℚ)⌋
  let upper_index := Int.toNat ⌈quantile * ((n - 1 : Nat) : ℚ)⌉
  let lower_value := new_array.getD lower_index 0
  let upper_value := new_array.getD upper_index 0
  let lower_quantile : ℚ := (lower_index : ℚ) / ((n - 1 : Nat) : ℚ)
  let upper_quantile : ℚ := (upper_index : ℚ) / ((n - 1 : Nat) : ℚ)
  if lower_index = upper_index then lower_value
  else
    let f := (quantile - lower_quantile) / (upper_quantile - lower_quantile)
    lower_value + (upper_value - lower_value) * f

/-- The quantile computation as the specification words it: sort the valid
subset ascending, take the values at ranks floor(q*(N-1)) and ceil(q*(N-1)),
and interpolate between them by the fractional part of the rank q*(N-1). -/
def quantile_spec (q : ℚ) (values : List ℚ) : ℚ :=
  let s := sort_total (values.filter (fun x => is_valid x))
  let n := s.length
  let x := q * ((n - 1 : Nat) : ℚ)
  let lower := Int.toNat ⌊x⌋
  let upper := Int.toNat ⌈x⌉
  s.getD lower 0 + (s.getD upper 0 - s.getD lower 0) * (x - (lower : ℚ))

/-- subset from src/checks/spatial/sct.rs lines 42-51 (indexing out of bounds
panics in Rust; modelled by a default). -/
def subset [Inhabited α] (array : List α) (indices : List Nat) : List α :=
  indices.map (fun i => array.getD i default)

/-- compute_vertical_profile_theil_sen from src/checks/spatial/sct.rs lines
53-105.  gamma = -0.0065 is the rational -13/2000. -/
def compute_vertical_profile_theil_sen (elevs values : List ℚ)
    (num_min_prof : Nat) (min_elev_diff : ℚ) : List ℚ :=
  let n := values.length
  let gamma : ℚ := -13/2000
  let mean_t : ℚ := values.sum / (n : ℚ)
  if elevs.min? = elevs.max? then List.replicate n mean_t
  else
    let z05 := compute_quantile (5/100) elevs
    let z95 := compute_quantile (95/100) elevs
    let use_basic := n < num_min_prof ∨ (z95 - z05) < min_elev_diff
    let m_median :=
      if use_basic then gamma
      else
        let m := (List.range n).foldl (fun acc i =>
          (List.range n).foldl (fun acc2 j =>
            if i < j then
              acc2 ++ [if |elevs.getD i 0 - elevs.getD j 0| < 1 then 0
                else (values.getD i 0 - values.getD j 0) / (elevs.getD i 0 - elevs.getD j 0)]
            else acc2) acc) []
        compute_quantile (1/2) m
    let q := (values.zip elevs).map (fun ve => ve.1 - m_median * ve.2)
    let q_median := compute_quantile (1/2) q
    elevs.map (fun elev => q_median + m_median * elev)

/-- remove_flagged from src/checks/spatial/sct.rs lines 148-165: keep exactly
the neighbours whose current flag is Pass, with their distances. -/
def remove_flagged (neighbours : List TreePoint) (distances : List ℚ)
    (flags : List Flag) : List TreePoint × List ℚ :=
  ((neighbours.zip distances).filter
    (fun nd => decide (flags.get? nd.1.data = some Flag.Pass))).unzip

/-- SctArgs from src/checks/spatial/sct.rs lines 13-40. -/
structure SctArgs where
  num_min : Nat
  num_max : Nat
  inner_radius : ℚ
  outer_radius : ℚ
  num_iterations : Nat
  num_min_prof : Nat
  min_elev_diff : ℚ
  min_horizontal_scale : ℚ
  vertical_scale : ℚ
  pos : SingleOrVec ℚ
  neg : SingleOrVec ℚ
  eps2 : SingleOrVec ℚ

/-- True when a Vec-variant parameter has the wrong length (Single variants
carry no length to check in the source). -/
def vec_shape_bad (sv : SingleOrVec ℚ) (n : Nat) : Bool :=
  match sv with
  | SingleOrVec.Single _ => false
  | SingleOrVec.Vec v => decide (v.length ≠ n)

/-- True when a Vec-variant parameter contains a negative entry (Single
variants are not value-checked in the source). -/
def vec_has_neg (sv : SingleOrVec ℚ) : Bool :=
  match sv with
  | SingleOrVec.Single _ => false
  | SingleOrVec.Vec v => v.any (fun x => decide (x < 0))

/-- True when a Vec-variant parameter contains a nonpositive entry (Single
variants are not value-checked in the source). -/
def vec_has_nonpos (sv : SingleOrVec ℚ) : Bool :=
  match sv with
  | SingleOrVec.Single _ => false
  | SingleOrVec.Vec v => v.any (fun x => decide (x ≤ 0))

/-- True when the optional obs_to_check mask is present with wrong length. -/
def obs_shape_bad (obs_to_check : Option (List Bool)) (n : Nat) : Bool :=
  match obs_to_check with
  | none => false
  | some inner => decide (inner.length ≠ n)

/-- The early-return validation sequence of sct (src/checks/spatial/sct.rs
lines 220-312), in source order.  Only Vec-variant pos/neg/eps2 are length-
and value-checked; a Single variant skips both checks. -/
def sct_validate (data : List (Option ℚ)) (rtree : SpatialTree) (args : SctArgs)
    (obs_to_check : Option (List Bool)) : Option Error :=
  let vec_length := data.length
  if rtree.points.length ≠ vec_length then some (Error.InvalidInputShape "tree_points")
  else if vec_shape_bad args.pos vec_length then some (Error.InvalidInputShape "pos")
  else if vec_has_neg args.pos then some (Error.InvalidArg "pos" "all values must be >= ")
  else if vec_shape_bad args.neg vec_length then some (Error.InvalidInputShape "neg")
  else if vec_has_neg args.neg then some (Error.InvalidArg "neg" "all values must be >= 0")
  else if vec_shape_bad args.eps2 vec_length then some (Error.InvalidInputShape "eps2")
  else if vec_has_nonpos args.eps2 then some (Error.InvalidArg "eps2" "all values must be > 0")
  else if obs_shape_bad obs_to_check vec_length then some (Error.InvalidInputShape "obs_to_check")
  else if args.num_min < 2 then some (Error.InvalidArg "num_min" "must be > 1")
  else if args.num_max < args.num_min then some (Error.InvalidArg "num_max" "must be > num_min")
  else if args.num_iterations < 1 then some (Error.InvalidArg "num_iterations" "must be >= 1")
  else if args.min_elev_diff ≤ 0 then some (Error.InvalidArg "min_elev_diff" "must be > 0")
  else if args.min_horizontal_scale ≤ 0 then
    some (Error.InvalidArg "min_horizontal_scale" "must be > 0")
  else if args.vertical_scale ≤ 0 then some (Error.InvalidArg "vertical_scale" "must be > 0")
  else if args.inner_radius < 0 then some (Error.InvalidArg "inner_radius" "must be >= 0")
  else if args.outer_radius < args.inner_radius then
    some (Error.InvalidArg "outer_radius" "must be >= inner_radius")
  else none

/-- Flag initialization of sct (src/checks/spatial/sct.rs lines 314-333):
DataMissing for absent values, Fail for non-finite present values, else Pass;
then stations with non-finite elevation are overwritten with Invalid. -/
def sct_init_flags (data : List (Option ℚ)) (elevs : List ℚ) : List Flag :=
  let flags := data.map (fun opt =>
    match opt with
    | some v => if is_valid v then Flag.Pass else Flag.Fail
    | none => Flag.DataMissing)
  flags.mapIdx (fun i f =>
    match elevs.get? i with
    | some e => if is_valid e then f else Flag.Invalid
    | none => f)

/-- obs_to_check lookup: None means every station is checked (buddy_check
uses map_or(true, ..), sct tests the entry only when the mask is present). -/
def mask_at (obs_to_check : Option (List Bool)) (i : Nat) : Bool :=
  match obs_to_check with
  | none => true
  | some inner => inner.getD i false

/-- Mutable state threaded through one sct iteration: the flags vector, the
prob_gross_error vector, the per-iteration checked vector and the
per-iteration rejection counter. -/
structure SctState where
  flags : List Flag
  pge : List ℚ
  checked : List Bool
  num_thrown_out : Nat

/-- Body of the inner loop of sct over the members of one box
(src/checks/spatial/sct.rs lines 482-504): curr is the pivot station index,
k the box-local index being finalized. -/
def sct_box_step (obs_to_check : Option (List Bool)) (args : SctArgs)
    (curr : Nat) (neighbour_indices : List Nat) (distances : List ℚ)
    (cvres ares : Nat → ℚ) (sig2o : ℚ) (st2 : SctState) (k : Nat) : SctState :=
  let idx := neighbour_indices.getD k 0
  if mask_at obs_to_check idx = false then
    { st2 with checked := st2.checked.set curr true }
  else
    let dist := distances.getD k 0
    if dist ≤ args.inner_radius then
      let pog : ℚ := cvres k * ares k / sig2o
      let st3 := { st2 with pge := st2.pge.set idx (max pog (st2.pge.getD idx 0)) }
      let st4 :=
        if (cvres k < 0 ∧ pog > args.pos.index idx)
            ∨ (cvres k ≥ 0 ∧ pog > args.neg.index idx) then
          { st3 with
              flags := st3.flags.set idx Flag.Fail
              num_thrown_out := st3.num_thrown_out + 1 }
        else st3
      { st4 with checked := st4.checked.set idx true }
    else st2

/-- Body of the per-station loop of sct (src/checks/spatial/sct.rs lines
343-504), processing station i on state st. -/
def sct_station (ops : QOps) (data : List (Option ℚ)) (rtree : SpatialTree)
    (args : SctArgs) (obs_to_check : Option (List Bool)) (st : SctState)
    (i : Nat) : SctState :=
  if mask_at obs_to_check i = false then { st with checked := st.checked.set i true }
  else if st.flags.getD i Flag.Pass ≠ Flag.Pass then
    { st with checked := st.checked.set i true }
  else if st.checked.getD i false = true then st
  else
    let nd := rtree.get_neighbours_with_distance ops (rtree.lats.getD i 0)
      (rtree.lons.getD i 0) args.outer_radius true
    let nf := remove_flagged nd.1 nd.2 st.flags
    let nt :=
      if nf.1.length > args.num_max then
        let pairs := (nf.1.zip nf.2).insertionSort (fun a b => a.2 ≤ b.2)
        (pairs.take args.num_max).unzip
      else nf
    let neighbours := nt.1
    let distances := nt.2
    if neighbours.length < args.num_min then
      { st with checked := st.checked.set i true, flags := st.flags.set i Flag.Isolated }
    else
      let box_size := neighbours.length
      let neighbour_indices := neighbours.map TreePoint.data
      let lats_box := subset rtree.lats neighbour_indices
      let lons_box := subset rtree.lons neighbour_indices
      let elevs_box := subset rtree.elevs neighbour_indices
      let values_box := (subset data neighbour_indices).map (fun o => o.getD 0)
      let eps2_box :=
        match args.eps2 with
        | SingleOrVec.Single v => SingleOrVec.Single v
        | SingleOrVec.Vec v => SingleOrVec.Vec (subset v neighbour_indices)
      let vertical_profile := compute_vertical_profile_theil_sen elevs_box values_box
        args.num_min_prof args.min_elev_diff
      let disth : Nat → Nat → ℚ := fun a b =>
        match calc_distance ops (lats_box.getD a 0) (lons_box.getD a 0)
          (lats_box.getD b 0) (lons_box.getD b 0) with
        | Except.ok v => v
        | Except.error _ => 0
      let distz : Nat → Nat → ℚ := fun a b => |elevs_box.getD a 0 - elevs_box.getD b 0|
      let dh : List ℚ := (List.range box_size).map (fun a =>
        let dh_vector := ((List.range box_size).filter (fun b => decide (a ≠ b))).map
          (fun b => disth a b)
        compute_quantile (10/100) dh_vector)
      let dh_mean : ℚ := max args.min_horizontal_scale (dh.sum / (box_size : ℚ))
      let s0 : Nat → Nat → ℚ := fun a b =>
        let value := ops.exp (-(1/2) * (disth a b / dh_mean) ^ 2
          - (1/2) * (distz a b / args.vertical_scale) ^ 2)
        if a = b then value + eps2_box.index a else value
      let s_inv := ops.invert box_size s0
      let s1 : Nat → Nat → ℚ := fun a b =>
        if a = b then s0 a b - eps2_box.index a else s0 a b
      let d : Nat → ℚ := fun a => values_box.getD a 0 - vertical_profile.getD a 0
      let s_inv_d : Nat → ℚ := fun a =>
        ((List.range box_size).map (fun b => s_inv a b * d b)).sum
      let ares_temp : Nat → ℚ := fun a =>
        ((List.range box_size).map (fun b => s1 a b * s_inv_d b)).sum
      let z_inv : Nat → ℚ := fun a => 1 / s_inv a a
      let ares : Nat → ℚ := fun a => ares_temp a - d a
      let cvres : Nat → ℚ := fun a => -1 * z_inv a * s_inv_d a
      let sig2o : ℚ := max (1/100)
        (((List.range box_size).map (fun a => d a * -1 * ares a)).sum / (box_size : ℚ))
      (List.range box_size).foldl
        (sct_box_step obs_to_check args i neighbour_indices distances cvres ares sig2o) st

/-- One full sweep of sct over all stations (the body of the iteration loop,
src/checks/spatial/sct.rs lines 336-505): checked and num_thrown_out are
freshly reset, flags and prob_gross_error carry over. -/
def sct_sweep (ops : QOps) (data : List (Option ℚ)) (rtree : SpatialTree)
    (args : SctArgs) (obs_to_check : Option (List Bool)) (flags : List Flag)
    (pge : List ℚ) : SctState :=
  (List.range data.length).foldl (sct_station ops data rtree args obs_to_check)
    { flags := flags, pge := pge, checked := List.replicate data.length false,
      num_thrown_out := 0 }

/-- The iteration loop of sct (src/checks/spatial/sct.rs lines 336-510):
up to the given number of iterations, breaking as soon as a sweep throws
nothing new out. -/
def sct_loop (ops : QOps) (data : List (Option ℚ)) (rtree : SpatialTree)
    (args : SctArgs) (obs_to_check : Option (List Bool)) :
    Nat → List Flag → List ℚ → List Flag × List ℚ
  | 0, flags, pge => (flags, pge)
  | n + 1, flags, pge =>
    let st := sct_sweep ops data rtree args obs_to_check flags pge
    if st.num_thrown_out = 0 then (st.flags, st.pge)
    else sct_loop ops data rtree args obs_to_check n st.flags st.pge

/-- sct from src/checks/spatial/sct.rs lines 214-513.  The source returns
Ok(flags); the prob_gross_error vector it accumulates is dropped at return. -/
def sct (ops : QOps) (data : List (Option ℚ)) (rtree : SpatialTree)
    (args : SctArgs) (obs_to_check : Option (List Bool)) :
    Except Error (List Flag) :=
  match sct_validate data rtree args obs_to_check with
  | some e => Except.error e
  | none =>
    let flags := sct_init_flags data rtree.elevs
    let prob_gross_error : List ℚ := List.replicate data.length 0
    let result := sct_loop ops data rtree args obs_to_check args.num_iterations
      flags prob_gross_error
    Except.ok result.1

/-- BuddyCheckArgs from src/checks/spatial/buddy_check.rs lines 8-26. -/
structure BuddyCheckArgs where
  radii : SingleOrVec ℚ
  nums_min : SingleOrVec Nat
  threshold : ℚ
  max_elev_diff : ℚ
  elev_gradient : ℚ
  min_std : ℚ
  num_iterations : Nat

/-- Flag initialization of buddy_check (src/checks/spatial/buddy_check.rs
lines 64-76). -/
def buddy_init_flags (data : List (Option ℚ)) : List Flag :=
  data.map (fun opt =>
    match opt with
    | some v => if is_valid v then Flag.Pass else Flag.Fail
    | none => Flag.DataMissing)

/-- Body of the per-station loop of buddy_check (src/checks/spatial/
buddy_check.rs lines 81-140), processing station i on the flags vector.
std::cmp::max_by with partial_cmp returns its second argument on ties,
matching max on rationals. -/
def buddy_station (ops : QOps) (data : List (Option ℚ)) (rtree : SpatialTree)
    (args : BuddyCheckArgs) (obs_to_check : Option (List Bool))
    (flags : List Flag) (i : Nat) : List Flag :=
  if flags.getD i Flag.Pass ≠ Flag.Pass then flags
  else if mask_at obs_to_check i = false then flags
  else
    let coords := rtree.get_coords_at_index i
    let elev := coords.2.2
    let neighbours := rtree.get_neighbours ops coords.1 coords.2.1
      (args.radii.index i) false
    let list_buddies : List ℚ :=
      if neighbours.length ≥ args.nums_min.index i then
        neighbours.foldl (fun acc neighbour =>
          let neighbour_elev := (rtree.get_coords_at_index neighbour.data).2.2
          if flags.get? neighbour.data ≠ some Flag.Pass then acc
          else if args.max_elev_diff > 0 then
            let elev_diff := elev - neighbour_elev
            if |elev_diff| ≤ args.max_elev_diff then
              acc ++ [(data.getD neighbour.data none).getD 0
                + elev_diff * args.elev_gradient]
            else acc
          else acc ++ [(data.getD neighbour.data none).getD 0]) []
      else []
    if list_buddies.length ≥ args.nums_min.index i then
      let mean : ℚ := list_buddies.sum / (list_buddies.length : ℚ)
      let variance : ℚ :=
        (list_buddies.map (fun x => x ^ 2)).sum / (list_buddies.length : ℚ) - mean ^ 2
      let std_adjusted : ℚ :=
        max (ops.sqrt (variance + variance / (list_buddies.length : ℚ))) args.min_std
      if |(data.getD i none).getD 0 - mean| / std_adjusted > args.threshold then
        flags.set i Flag.Fail
      else flags
    else flags

/-- One full sweep of buddy_check over all stations (src/checks/spatial/
buddy_check.rs lines 81-140). -/
def buddy_sweep (ops : QOps) (data : List (Option ℚ)) (rtree : SpatialTree)
    (args : BuddyCheckArgs) (obs_to_check : Option (List Bool))
    (flags : List Flag) : List Flag :=
  (List.range data.length).foldl (buddy_station ops data rtree args obs_to_check) flags

/-- num_removed accumulation of buddy_check (src/checks/spatial/
buddy_check.rs lines 142-144): the number of flags that are not Pass. -/
def count_non_pass (flags : List Flag) : Nat :=
  flags.foldl (fun acc f => acc + (if f ≠ Flag.Pass then 1 else 0)) 0

/-- The iteration loop of buddy_check (src/checks/spatial/buddy_check.rs
lines 78-152).  Returns the final flags and the number of sweeps executed.
num_removed_last_iteration holds the previous DELTA (not the previous
total), exactly as in the source; the u32 subtraction never underflows on
reachable states and is modelled by Nat subtraction. -/
def buddy_loop (ops : QOps) (data : List (Option ℚ)) (rtree : SpatialTree)
    (args : BuddyCheckArgs) (obs_to_check : Option (List Bool)) :
    Nat → List Flag → Nat → List Flag × Nat
  | 0, flags, _ => (flags, 0)
  | n + 1, flags, num_removed_last_iteration =>
    let flags2 := buddy_sweep ops data rtree args obs_to_check flags
    let num_removed := count_non_pass flags2
    let num_removed_current_iteration := num_removed - num_removed_last_iteration
    if num_removed_current_iteration = 0 then (flags2, 1)
    else
      let r := buddy_loop ops data rtree args obs_to_check n flags2
        num_removed_current_iteration
      (r.1, r.2 + 1)

/-- buddy_check from src/checks/spatial/buddy_check.rs lines 56-155.  The
source performs no input-shape validation (its TODO notes this) and always
returns Ok. -/
def buddy_check (ops : QOps) (data : List (Option ℚ)) (rtree : SpatialTree)
    (args : BuddyCheckArgs) (obs_to_check : Option (List Bool)) :
    Except Error (List Flag) :=
  Except.ok (buddy_loop ops data rtree args obs_to_check args.num_iterations
    (buddy_init_flags data) 0).1

/-- The number of sweeps buddy_check actually executes before returning. -/
def buddy_check_sweeps_used (ops : QOps) (data : List (Option ℚ))
    (rtree : SpatialTree) (args : BuddyCheckArgs)
    (obs_to_check : Option (List Bool)) : Nat :=
  (buddy_loop ops data rtree args obs_to_check args.num_iterations
    (buddy_init_flags data) 0).2

/-- Count of Fail flags (the quantity the specification says the early-stop
rule compares between sweeps). -/
def count_fail (flags : List Flag) : Nat :=
  flags.foldl (fun acc f => acc + (if f = Flag.Fail then 1 else 0)) 0

/-- The iteration loop as the specification words it: after each full sweep,
stop as soon as the sweep flagged zero new stations as Fail compared to the
previous sweep.  Returns the final flags and the number of sweeps executed. -/
def buddy_loop_claim (ops : QOps) (data : List (Option ℚ)) (rtree : SpatialTree)
    (args : BuddyCheckArgs) (obs_to_check : Option (List Bool)) :
    Nat → List Flag → List Flag × Nat
  | 0, flags => (flags, 0)
  | n + 1, flags =>
    let flags2 := buddy_sweep ops data rtree args obs_to_check flags
    if count_fail flags2 = count_fail flags then (flags2, 1)
    else
      let r := buddy_loop_claim ops data rtree args obs_to_check n flags2
      (r.1, r.2 + 1)

/-- The number of sweeps buddy_check would execute under the claimed
early-termination rule (stop on the first sweep with zero new Fail flags). -/
def buddy_check_sweeps_claim (ops : QOps) (data : List (Option ℚ))
    (rtree : SpatialTree) (args : BuddyCheckArgs)
    (obs_to_check : Option (List Bool)) : Nat :=
  (buddy_loop_claim ops data rtree args obs_to_check args.num_iterations
    (buddy_init_flags data)).2

/-- How one step of sct may evolve the flags vector: each entry is unchanged,
or belongs to a station the mask allows checking and is written to Fail, or
was Pass and is written to Isolated. -/
def SctStep (m : Option (List Bool)) (f g : List Flag) : Prop :=
  g.length = f.length ∧
  ∀ j, g[j]? = f[j]? ∨
    (mask_at m j = true ∧
      (g[j]? = some Flag.Fail ∨ (f[j]? = some Flag.Pass ∧ g[j]? = some Flag.Isolated)))

/-- How one step of buddy_check may evolve the flags vector: each entry is
unchanged, or belongs to a station the mask allows checking, was Pass, and is
written to Fail. -/
def BuddyStep (m : Option (List Bool)) (f g : List Flag) : Prop :=
  g.length = f.length ∧
  ∀ j, g[j]? = f[j]? ∨
    (mask_at m j = true ∧ f[j]? = some Flag.Pass ∧ g[j]? = some Flag.Fail)

/-! Concrete inputs used to evaluate the embedded algorithms. -/

instance {ε α : Type} [DecidableEq ε] [DecidableEq α] : DecidableEq (Except ε α) :=
  fun x y =>
    match x, y with
    | Except.ok a, Except.ok b =>
      decidable_of_iff (a = b) ⟨fun h => h ▸ rfl, fun h => Except.ok.inj h⟩
    | Except.error a, Except.error b =>
      decidable_of_iff (a = b) ⟨fun h => h ▸ rfl, fun h => Except.error.inj h⟩
    | Except.ok _, Except.error _ => isFalse fun h => Except.noConfusion h
    | Except.error _, Except.ok _ => isFalse fun h => Except.noConfusion h

/-- Arbitrary concrete instantiation of the uninterpreted primitives, used
only to evaluate theorems that hold for every QOps. -/
def dummy_ops : QOps :=
  { cos := id, sin := id, acos := id, sqrt := id, exp := id, to_radians := id,
    invert := fun _ m => m }

/-- Empty spatial tree (zero stations). -/
def tree0 : SpatialTree := { points := [], lats := [], lons := [], elevs := [] }

/-- Spatial tree over one station. -/
def tree1 : SpatialTree :=
  { points := [{ geom := (0, 0, 0), data := 0 }], lats := [0], lons := [0], elevs := [0] }

/-- Spatial tree over two stations. -/
def tree2 : SpatialTree :=
  { points := [{ geom := (0, 0, 0), data := 0 }, { geom := (1, 0, 0), data := 1 }],
    lats := [0, 0], lons := [0, 1], elevs := [0, 0] }

/-- A fully in-domain SctArgs instance. -/
def sct_args_ok : SctArgs :=
  { num_min := 2, num_max := 2, inner_radius := 0, outer_radius := 0,
    num_iterations := 1, num_min_prof := 0, min_elev_diff := 1,
    min_horizontal_scale := 1, vertical_scale := 1,
    pos := SingleOrVec.Single 2, neg := SingleOrVec.Single 2,
    eps2 := SingleOrVec.Single 1 }

/-- SctArgs whose Single-variant eps2 is nonpositive; every parameter the
source validates is in domain. -/
def sct_args_single_neg_eps2 : SctArgs :=
  { num_min := 2, num_max := 2, inner_radius := 0, outer_radius := 0,
    num_iterations := 1, num_min_prof := 0, min_elev_diff := 1,
    min_horizontal_scale := 1, vertical_scale := 1,
    pos := SingleOrVec.Single 2, neg := SingleOrVec.Single 2,
    eps2 := SingleOrVec.Single (-1) }

/-- In-domain BuddyCheckArgs instance with a two-iteration cap. -/
def buddy_args2 : BuddyCheckArgs :=
  { radii := SingleOrVec.Single 10000, nums_min := SingleOrVec.Single 1,
    threshold := 1, max_elev_diff := 200, elev_gradient := 0, min_std := 1,
    num_iterations := 2 }

/-- C1: the sct operation of the source returns a single per-station output,
the flags vector; evaluated on two stations with missing data it returns
Ok([DataMissing, DataMissing]) and nothing else — the prob_gross_error
vector accumulated internally is discarded at return. -/
theorem C1_sct_returns_flags_only :
    sct dummy_ops [none, none] tree2 sct_args_ok none
      = Except.ok [Flag.DataMissing, Flag.DataMissing] := by decide

/-- C5: buddy_check performs no input-shape validation: called with zero
observations against an index of one station (a shape mismatch the claim
says must yield InvalidInputShape), it returns Ok([]) instead of an error. -/
theorem C5_buddy_check_no_shape_validation :
    buddy_check dummy_ops [] tree1 buddy_args2 none = Except.ok [] := by decide

/-- C3 counterexample: on one station with missing data and a cap of 2, the
first sweep flags zero new stations as Fail, yet buddy_check does not stop
after it: it executes 2 sweeps, while the claimed rule (stop after the first
sweep with zero new failures) would execute exactly 1. -/
theorem C3_counterexample :
    buddy_check_sweeps_used dummy_ops [none] tree1 buddy_args2 none = 2 ∧
    buddy_check_sweeps_claim dummy_ops [none] tree1 buddy_args2 none = 1 := by decide

/-- C4 counterexample: sct called with eps2 = Single(-1) (an eps2 ≤ 0, which
the claim says must yield an InvalidArg error) is accepted: on an empty
station set the call runs to completion and returns Ok([]). -/
theorem C4_counterexample :
    sct dummy_ops [] tree0 sct_args_single_neg_eps2 none = Except.ok [] := by decide

/-- C2: the neighbours query does not return all points within the query
radius: with stored points at squared distances 0 and 4 from the query point
and radius 3, the point whose (chord) distance 2 is within the radius 3 is
omitted, because the radius is passed to the R-tree in the position of a
squared radius. -/
theorem C2_radius_passed_as_squared_radius :
    dist2 (2, 0, 0) (0, 0, 0) ≤ 3 ^ 2 ∧
    get_neighbours_xyz [{ geom := (0, 0, 0), data := 0 }, { geom := (2, 0, 0), data := 1 }]
      (0, 0, 0) 3 true = [{ geom := (0, 0, 0), data := 0 }] ∧
    ({ geom := ((2 : ℚ), (0 : ℚ), (0 : ℚ)), data := 1 } : TreePoint) ∉ get_neighbours_xyz
      [{ geom := (0, 0, 0), data := 0 }, { geom := (2, 0, 0), data := 1 }] (0, 0, 0) 3 true := by
  refine ⟨by norm_num [dist2], ?_, ?_⟩
  · simp only [get_neighbours_xyz, locate_within_distance, List.filter_cons, List.filter_nil]
    norm_num [dist2]
  · simp only [get_neighbours_xyz, locate_within_distance, List.mem_filter,
      decide_eq_true_eq, List.mem_cons]
    norm_num [dist2]

/-- C10: with include_match set to false the neighbours query filters by
exact equality of the stored 3D coordinates with the converted query
coordinates, not by station identity: a point is returned iff it is stored,
within the (squared-distance) range, and its coordinates differ from the
query point's; in particular every returned point of a lat/lon query has
coordinates different from the converted query position, so a distinct
station converted to the same coordinates is omitted as well. -/
theorem C10_include_match_filters_by_coordinates :
    ∀ (points : List TreePoint) (q : ℚ × ℚ × ℚ) (radius : ℚ) (p : TreePoint),
      (p ∈ get_neighbours_xyz points q radius false ↔
        p ∈ points ∧ dist2 p.geom q ≤ radius ∧ p.geom ≠ q) ∧
      ∀ (ops : QOps) (tree : SpatialTree) (lat lon : ℚ),
        (tree.get_neighbours ops lat lon radius false).all
          (fun tp => decide (tp.geom ≠ convert_coordinates ops lat lon)) = true := by
  intro points q radius p
  constructor
  · simp only [get_neighbours_xyz, locate_within_distance, List.mem_filter,
      decide_eq_true_eq]
    tauto
  · intro ops tree lat lon
    simp only [SpatialTree.get_neighbours, get_neighbours_xyz, locate_within_distance,
      List.all_eq_true, List.mem_filter, decide_eq_true_eq]
    exact fun tp h => h.2

/-! Invariant lemmas about the flag-evolution relations. -/

theorem sct_step_refl (m : Option (List Bool)) (f : List Flag) : SctStep m f f :=
  ⟨rfl, fun _ => Or.inl rfl⟩

theorem buddy_step_refl (m : Option (List Bool)) (f : List Flag) : BuddyStep m f f :=
  ⟨rfl, fun _ => Or.inl rfl⟩

theorem sct_step_trans {m : Option (List Bool)} {f g h : List Flag}
    (h1 : SctStep m f g) (h2 : SctStep m g h) : SctStep m f h := by
  obtain ⟨hl1, hp1⟩ := h1
  obtain ⟨hl2, hp2⟩ := h2
  refine ⟨hl2.trans hl1, fun j => ?_⟩
  rcases hp2 j with h2j | ⟨hm, h2j⟩
  · rw [h2j]; exact hp1 j
  · rcases h2j with hfail | ⟨hgp, hiso⟩
    · exact Or.inr ⟨hm, Or.inl hfail⟩
    · rcases hp1 j with h1j | ⟨_, h1j⟩
      · rw [h1j] at hgp
        exact Or.inr ⟨hm, Or.inr ⟨hgp, hiso⟩⟩
      · rcases h1j with hgf | ⟨_, hgi⟩
        · rw [hgf] at hgp; simp at hgp
        · rw [hgi] at hgp; simp at hgp

theorem buddy_step_trans {m : Option (List Bool)} {f g h : List Flag}
    (h1 : BuddyStep m f g) (h2 : BuddyStep m g h) : BuddyStep m f h := by
  obtain ⟨hl1, hp1⟩ := h1
  obtain ⟨hl2, hp2⟩ := h2
  refine ⟨hl2.trans hl1, fun j => ?_⟩
  rcases hp2 j with h2j | ⟨hm, hgp, hhf⟩
  · rw [h2j]; exact hp1 j
  · rcases hp1 j with h1j | ⟨_, _, hgf⟩
    · rw [h1j] at hgp
      exact Or.inr ⟨hm, hgp, hhf⟩
    · rw [hgf] at hgp; simp at hgp

theorem sct_step_set_fail {m : Option (List Bool)} (f : List Flag) {i : Nat}
    (hm : mask_at m i = true) : SctStep m f (f.set i Flag.Fail) := by
  by_cases hlen : i < f.length
  · refine ⟨by simp, fun j => ?_⟩
    by_cases hj : i = j
    · subst hj
      exact Or.inr ⟨hm, Or.inl (List.getElem?_set_self hlen)⟩
    · exact Or.inl (List.getElem?_set_ne hj)
  · rw [List.set_eq_of_length_le (Nat.le_of_not_lt hlen)]
    exact sct_step_refl m f

theorem sct_step_set_isolated {m : Option (List Bool)} {f : List Flag} {i : Nat}
    (hm : mask_at m i = true) (hp : f.getD i Flag.Pass = Flag.Pass) :
    SctStep m f (f.set i Flag.Isolated) := by
  by_cases hlen : i < f.length
  · refine ⟨by simp, fun j => ?_⟩
    by_cases hj : i = j
    · subst hj
      refine Or.inr ⟨hm, Or.inr ⟨?_, List.getElem?_set_self hlen⟩⟩
      rw [List.getD_eq_getElem?_getD, List.getElem?_eq_getElem hlen,
        Option.getD_some] at hp
      rw [List.getElem?_eq_getElem hlen, hp]
    · exact Or.inl (List.getElem?_set_ne hj)
  · rw [List.set_eq_of_length_le (Nat.le_of_not_lt hlen)]
    exact sct_step_refl m f

theorem buddy_step_set_fail {m : Option (List Bool)} {f : List Flag} {i : Nat}
    (hm : mask_at m i = true) (hp : f.getD i Flag.Pass = Flag.Pass) :
    BuddyStep m f (f.set i Flag.Fail) := by
  by_cases hlen : i < f.length
  · refine ⟨by simp, fun j => ?_⟩
    by_cases hj : i = j
    · subst hj
      refine Or.inr ⟨hm, ?_, List.getElem?_set_self hlen⟩
      rw [List.getD_eq_getElem?_getD, List.getElem?_eq_getElem hlen,
        Option.getD_some] at hp
      rw [List.getElem?_eq_getElem hlen, hp]
    · exact Or.inl (List.getElem?_set_ne hj)
  · rw [List.set_eq_of_length_le (Nat.le_of_not_lt hlen)]
    exact buddy_step_refl m f

/-- Fold a step relation along a list fold through a projection. -/
theorem foldl_rel {σ α : Type} (R : List Flag → List Flag → Prop)
    (hrefl : ∀ f, R f f) (htrans : ∀ {a b c}, R a b → R b c → R a c)
    (proj : σ → List Flag) (step : σ → α → σ)
    (hstep : ∀ s a, R (proj s) (proj (step s a))) :
    ∀ (l : List α) (s : σ), R (proj s) (proj (l.foldl step s)) := by
  intro l
  induction l with
  | nil => intro s; exact hrefl _
  | cons a t ih => intro s; exact htrans (hstep s a) (ih (step s a))

theorem sct_box_step_flags (m : Option (List Bool)) (args : SctArgs)
    (curr : Nat) (nidx : List Nat) (dists : List ℚ) (cvres ares : Nat → ℚ)
    (sig2o : ℚ) (st2 : SctState) (k : Nat) :
    SctStep m st2.flags (sct_box_step m args curr nidx dists cvres ares sig2o st2 k).flags := by
  unfold sct_box_step
  by_cases hmask : mask_at m (nidx.getD k 0) = false
  · simp only [hmask, if_pos rfl, if_true]
    exact sct_step_refl m st2.flags
  · have hm : mask_at m (nidx.getD k 0) = true := by
      revert hmask; cases mask_at m (nidx.getD k 0) <;> simp
    rw [if_neg hmask]
    dsimp only
    split
    · split
      · dsimp only
        exact sct_step_set_fail st2.flags hm
      · dsimp only
        exact sct_step_refl m st2.flags
    · exact sct_step_refl m st2.flags

theorem sct_station_step (ops : QOps) (data : List (Option ℚ)) (rtree : SpatialTree)
    (args : SctArgs) (m : Option (List Bool)) (st : SctState) (i : Nat) :
    SctStep m st.flags (sct_station ops data rtree args m st i).flags := by
  unfold sct_station
  by_cases h1 : mask_at m i = false
  · rw [if_pos h1]
    exact sct_step_refl m st.flags
  · have hm : mask_at m i = true := by
      revert h1; cases mask_at m i <;> simp
    rw [if_neg h1]
    by_cases h2 : st.flags.getD i Flag.Pass ≠ Flag.Pass
    · rw [if_pos h2]
      exact sct_step_refl m st.flags
    · rw [if_neg h2]
      have hp : st.flags.getD i Flag.Pass = Flag.Pass := not_not.mp h2
      by_cases h3 : st.checked.getD i false = true
      · rw [if_pos h3]
        exact sct_step_refl m st.flags
      · rw [if_neg h3]
        try dsimp only
        repeat' split
        all_goals
          first
            | (dsimp only; exact sct_step_set_isolated hm hp)
            | exact sct_step_set_isolated hm hp
            | exact foldl_rel (SctStep m) (sct_step_refl m) sct_step_trans
                SctState.flags _ (sct_box_step_flags m args i _ _ _ _ _) _ st

theorem sct_sweep_step (ops : QOps) (data : List (Option ℚ)) (rtree : SpatialTree)
    (args : SctArgs) (m : Option (List Bool)) (flags : List Flag) (pge : List ℚ) :
    SctStep m flags (sct_sweep ops data rtree args m flags pge).flags := by
  unfold sct_sweep
  exact foldl_rel (SctStep m) (sct_step_refl m) sct_step_trans
    SctState.flags _ (sct_station_step ops data rtree args m) _ _

theorem sct_loop_step (ops : QOps) (data : List (Option ℚ)) (rtree : SpatialTree)
    (args : SctArgs) (m : Option (List Bool)) :
    ∀ (fuel : Nat) (flags : List Flag) (pge : List ℚ),
      SctStep m flags (sct_loop ops data rtree args m fuel flags pge).1 := by
  intro fuel
  induction fuel with
  | zero => intro flags pge; exact sct_step_refl m flags
  | succ n ih =>
    intro flags pge
    unfold sct_loop
    dsimp only
    split
    · exact sct_sweep_step ops data rtree args m flags pge
    · exact sct_step_trans (sct_sweep_step ops data rtree args m flags pge) (ih _ _)

theorem buddy_station_step (ops : QOps) (data : List (Option ℚ)) (rtree : SpatialTree)
    (args : BuddyCheckArgs) (m : Option (List Bool)) (flags : List Flag) (i : Nat) :
    BuddyStep m flags (buddy_station ops data rtree args m flags i) := by
  unfold buddy_station
  by_cases h1 : flags.getD i Flag.Pass ≠ Flag.Pass
  · rw [if_pos h1]
    exact buddy_step_refl m flags
  · rw [if_neg h1]
    have hp : flags.getD i Flag.Pass = Flag.Pass := not_not.mp h1
    by_cases h2 : mask_at m i = false
    · rw [if_pos h2]
      exact buddy_step_refl m flags
    · have hm : mask_at m i = true := by
        revert h2; cases mask_at m i <;> simp
      rw [if_neg h2]
      try dsimp only
      repeat' split
      all_goals
        first
          | exact buddy_step_set_fail hm hp
          | exact buddy_step_refl m flags

theorem buddy_sweep_step (ops : QOps) (data : List (Option ℚ)) (rtree : SpatialTree)
    (args : BuddyCheckArgs) (m : Option (List Bool)) (flags : List Flag) :
    BuddyStep m flags (buddy_sweep ops data rtree args m flags) := by
  unfold buddy_sweep
  exact foldl_rel (BuddyStep m) (buddy_step_refl m) buddy_step_trans
    id (buddy_station ops data rtree args m) (buddy_station_step ops data rtree args m) _ _

theorem buddy_loop_step (ops : QOps) (data : List (Option ℚ)) (rtree : SpatialTree)
    (args : BuddyCheckArgs) (m : Option (List Bool)) :
    ∀ (fuel : Nat) (flags : List Flag) (last : Nat),
      BuddyStep m flags (buddy_loop ops data rtree args m fuel flags last).1 := by
  intro fuel
  induction fuel with
  | zero => intro flags last; exact buddy_step_refl m flags
  | succ n ih =>
    intro flags last
    unfold buddy_loop
    dsimp only
    split
    · exact buddy_sweep_step ops data rtree args m flags
    · exact buddy_step_trans (buddy_sweep_step ops data rtree args m flags) (ih _ _)

theorem count_non_pass_foldl_acc :
    ∀ (l : List Flag) (acc : Nat),
      l.foldl (fun a f => a + (if f ≠ Flag.Pass then 1 else 0)) acc
        = acc + count_non_pass l := by
  intro l
  induction l with
  | nil => intro acc; simp [count_non_pass]
  | cons x t ih =>
    intro acc
    have hx : count_non_pass (x :: t)
        = (if x ≠ Flag.Pass then 1 else 0) + count_non_pass t := by
      show List.foldl _ _ (x :: t) = _
      rw [List.foldl_cons, ih, Nat.zero_add]
    rw [List.foldl_cons, ih, hx]
    omega

theorem count_non_pass_cons (x : Flag) (t : List Flag) :
    count_non_pass (x :: t) = (if x ≠ Flag.Pass then 1 else 0) + count_non_pass t := by
  show List.foldl _ _ (x :: t) = _
  rw [List.foldl_cons, count_non_pass_foldl_acc, Nat.zero_add]

/-- If g evolves pointwise from f only by turning Pass entries into Fail,
then the non-Pass count does not decrease, and it is unchanged only when
nothing was written at all. -/
theorem count_pointwise :
    ∀ (f g : List Flag), g.length = f.length →
      (∀ (j : Nat), g[j]? = f[j]? ∨ (f[j]? = some Flag.Pass ∧ g[j]? = some Flag.Fail)) →
      count_non_pass f ≤ count_non_pass g ∧
        (count_non_pass g = count_non_pass f → g = f) := by
  intro f
  induction f with
  | nil =>
    intro g hlen _
    rw [List.length_nil, List.length_eq_zero] at hlen
    subst hlen
    exact ⟨Nat.le_refl _, fun _ => rfl⟩
  | cons a ft ih =>
    intro g hlen hpt
    cases g with
    | nil => simp at hlen
    | cons b gt =>
      have hlen2 : gt.length = ft.length := by simpa using hlen
      have hpt2 : ∀ (j : Nat), gt[j]? = ft[j]?
          ∨ (ft[j]? = some Flag.Pass ∧ gt[j]? = some Flag.Fail) := by
        intro j
        have hj := hpt (j + 1)
        simpa using hj
      obtain ⟨hle, heq⟩ := ih gt hlen2 hpt2
      have hhead := hpt 0
      simp only [List.getElem?_cons_zero, Option.some.injEq] at hhead
      rw [count_non_pass_cons, count_non_pass_cons]
      rcases hhead with hba | ⟨ha, hb⟩
      · subst hba
        refine ⟨by omega, fun hc => ?_⟩
        have hteq : count_non_pass gt = count_non_pass ft := by omega
        rw [heq hteq]
      · subst ha; subst hb
        have hA : (if (Flag.Pass : Flag) ≠ Flag.Pass then 1 else 0) = 0 := by decide
        have hB : (if (Flag.Fail : Flag) ≠ Flag.Pass then 1 else 0) = 1 := by decide
        rw [hA, hB]
        refine ⟨by omega, fun hc => absurd hc (by omega)⟩

/-- Unfolding equation for one iteration of the buddy_check loop. -/
theorem buddy_loop_succ (ops : QOps) (data : List (Option ℚ))
    (rtree : SpatialTree) (args : BuddyCheckArgs) (obs : Option (List Bool))
    (n : Nat) (flags : List Flag) (last : Nat) :
    buddy_loop ops data rtree args obs (n + 1) flags last
      = if count_non_pass (buddy_sweep ops data rtree args obs flags) - last = 0
        then (buddy_sweep ops data rtree args obs flags, 1)
        else ((buddy_loop ops data rtree args obs n
            (buddy_sweep ops data rtree args obs flags)
            (count_non_pass (buddy_sweep ops data rtree args obs flags) - last)).1,
          (buddy_loop ops data rtree args obs n
            (buddy_sweep ops data rtree args obs flags)
            (count_non_pass (buddy_sweep ops data rtree args obs flags) - last)).2 + 1)
      := rfl

theorem buddy_loop_sweeps_le (ops : QOps) (data : List (Option ℚ))
    (rtree : SpatialTree) (args : BuddyCheckArgs) (obs : Option (List Bool)) :
    ∀ (fuel : Nat) (flags : List Flag) (last : Nat),
      (buddy_loop ops data rtree args obs fuel flags last).2 ≤ fuel := by
  intro fuel
  induction fuel with
  | zero => intro flags last; exact Nat.le_refl 0
  | succ n ih =>
    intro flags last
    rw [buddy_loop_succ]
    by_cases hc : count_non_pass (buddy_sweep ops data rtree args obs flags) - last = 0
    · rw [if_pos hc]; exact Nat.succ_le_succ (Nat.zero_le n)
    · rw [if_neg hc]; exact Nat.succ_le_succ (ih _ _)

/-- Weaken a BuddyStep to the mask-free pointwise relation. -/
theorem buddy_step_pointwise {m : Option (List Bool)} {f g : List Flag}
    (h : BuddyStep m f g) :
    ∀ (j : Nat), g[j]? = f[j]? ∨ (f[j]? = some Flag.Pass ∧ g[j]? = some Flag.Fail) := by
  intro j
  rcases h.2 j with hj | ⟨_, hp, hf⟩
  · exact Or.inl hj
  · exact Or.inr ⟨hp, hf⟩

/-- When buddy_loop stops with sweeps to spare, its final flags vector is a
fixed point of the sweep: the terminating sweep flagged nothing new. -/
theorem buddy_loop_break_fixed (ops : QOps) (data : List (Option ℚ))
    (rtree : SpatialTree) (args : BuddyCheckArgs) (obs : Option (List Bool)) :
    ∀ (fuel : Nat) (flags : List Flag) (last : Nat),
      last ≤ count_non_pass flags →
      (buddy_loop ops data rtree args obs fuel flags last).2 < fuel →
      buddy_sweep ops data rtree args obs
          (buddy_loop ops data rtree args obs fuel flags last).1
        = (buddy_loop ops data rtree args obs fuel flags last).1 := by
  intro fuel
  induction fuel with
  | zero => intro flags last _ hlt; exact absurd hlt (Nat.lt_irrefl 0)
  | succ n ih =>
    intro flags last hinv hlt
    rw [buddy_loop_succ] at hlt ⊢
    by_cases hc : count_non_pass (buddy_sweep ops data rtree args obs flags) - last = 0
    · rw [if_pos hc]
      have hstep := buddy_sweep_step ops data rtree args obs flags
      have hcount := (count_pointwise flags _ hstep.1 (buddy_step_pointwise hstep)).1
      have hsub : count_non_pass (buddy_sweep ops data rtree args obs flags) ≤ last :=
        Nat.le_of_sub_eq_zero hc
      have hceq : count_non_pass (buddy_sweep ops data rtree args obs flags)
          = count_non_pass flags := Nat.le_antisymm (hsub.trans hinv) hcount
      have hfix : buddy_sweep ops data rtree args obs flags = flags :=
        (count_pointwise flags _ hstep.1 (buddy_step_pointwise hstep)).2 hceq
      show buddy_sweep ops data rtree args obs (buddy_sweep ops data rtree args obs flags)
        = buddy_sweep ops data rtree args obs flags
      rw [hfix, hfix]
    · rw [if_neg hc] at hlt ⊢
      simp only at hlt
      exact ih _ _ (Nat.sub_le _ _) (Nat.lt_of_succ_lt_succ hlt)

/-- The loop trajectory does not depend on the iteration cap: any cap at
least the number of sweeps an early-terminating run used replays exactly the
same run. -/
theorem buddy_loop_replay (ops : QOps) (data : List (Option ℚ))
    (rtree : SpatialTree) (args : BuddyCheckArgs) (obs : Option (List Bool)) :
    ∀ (fuel : Nat) (flags : List Flag) (last : Nat) (mfuel : Nat),
      (buddy_loop ops data rtree args obs fuel flags last).2 < fuel →
      (buddy_loop ops data rtree args obs fuel flags last).2 ≤ mfuel →
      buddy_loop ops data rtree args obs mfuel flags last
        = buddy_loop ops data rtree args obs fuel flags last := by
  intro fuel
  induction fuel with
  | zero => intro flags last mfuel hlt _; exact absurd hlt (Nat.lt_irrefl 0)
  | succ n ih =>
    intro flags last mfuel hlt hle
    rw [buddy_loop_succ] at hlt hle ⊢
    by_cases hc : count_non_pass (buddy_sweep ops data rtree args obs flags) - last = 0
    · rw [if_pos hc] at hlt hle ⊢
      simp only at hle
      cases mfuel with
      | zero => exact absurd hle (by omega)
      | succ k =>
        rw [buddy_loop_succ, if_pos hc]
    · rw [if_neg hc] at hlt hle ⊢
      simp only at hlt hle
      cases mfuel with
      | zero => exact absurd hle (by omega)
      | succ k =>
        rw [buddy_loop_succ, if_neg hc]
        have hr := ih (buddy_sweep ops data rtree args obs flags)
          (count_non_pass (buddy_sweep ops data rtree args obs flags) - last) k
          (Nat.lt_of_succ_lt_succ hlt) (Nat.le_of_succ_le_succ hle)
        rw [hr]

/-- C6: within one call of buddy_check or sct, a Fail flag is permanent:
whatever state the flags vector is in, after any number of further sweeps of
either algorithm a station flagged Fail is still flagged Fail (so the Fail
set is non-decreasing and Fail never reverts to Pass). -/
theorem C6_fail_is_permanent :
    (∀ (ops : QOps) (data : List (Option ℚ)) (rtree : SpatialTree)
        (args : BuddyCheckArgs) (obs : Option (List Bool)) (fuel : Nat)
        (flags : List Flag) (last : Nat) (j : Nat),
      flags[j]? = some Flag.Fail →
      ((buddy_loop ops data rtree args obs fuel flags last).1)[j]? = some Flag.Fail) ∧
    (∀ (ops : QOps) (data : List (Option ℚ)) (rtree : SpatialTree)
        (args : SctArgs) (obs : Option (List Bool)) (fuel : Nat)
        (flags : List Flag) (pge : List ℚ) (j : Nat),
      flags[j]? = some Flag.Fail →
      ((sct_loop ops data rtree args obs fuel flags pge).1)[j]? = some Flag.Fail) := by
  constructor
  · intro ops data rtree args obs fuel flags last j hj
    have hstep := buddy_loop_step ops data rtree args obs fuel flags last
    rcases hstep.2 j with h | ⟨_, hp, _⟩
    · rw [h, hj]
    · rw [hj] at hp
      exact absurd hp (by decide)
  · intro ops data rtree args obs fuel flags pge j hj
    have hstep := sct_loop_step ops data rtree args obs fuel flags pge
    rcases hstep.2 j with h | ⟨_, hf | ⟨hp, _⟩⟩
    · rw [h, hj]
    · exact hf
    · rw [hj] at hp
      exact absurd hp (by decide)

/-- Witness for C6 at a concrete input: station 0 starts at Fail and is
still Fail after a full iteration of each algorithm. -/
theorem C6_fail_is_permanent_witness :
    ((buddy_loop dummy_ops [some 1] tree1 buddy_args2 none 1 [Flag.Fail] 0).1)[0]?
      = some Flag.Fail ∧
    ((sct_loop dummy_ops [some 1] tree1 sct_args_ok none 1 [Flag.Fail] [0]).1)[0]?
      = some Flag.Fail :=
  ⟨C6_fail_is_permanent.1 dummy_ops [some 1] tree1 buddy_args2 none 1 [Flag.Fail] 0 0
      (by decide),
   C6_fail_is_permanent.2 dummy_ops [some 1] tree1 sct_args_ok none 1 [Flag.Fail] [0] 0
      (by decide)⟩

/-- Every element of the left list appears as the first component of some
pair of the zip when the lengths agree. -/
theorem mem_zip_of_mem_left {α β : Type} :
    ∀ {l1 : List α} {l2 : List β}, l1.length = l2.length →
      ∀ {a : α}, a ∈ l1 → ∃ b, (a, b) ∈ l1.zip l2 := by
  intro l1
  induction l1 with
  | nil => intro l2 _ a ha; cases ha
  | cons x xs ih =>
    intro l2 hlen a ha
    cases l2 with
    | nil => simp at hlen
    | cons y ys =>
      rcases List.mem_cons.mp ha with rfl | hmem
      · exact ⟨y, by simp⟩
      · obtain ⟨b, hb⟩ := ih (by simpa using hlen) hmem
        exact ⟨b, by simp [hb]⟩

/-- C7: a station whose obs_to_check entry is false keeps its initialization
flag through a whole buddy_check or sct call; the evaluation of a station in
buddy_check does not depend on the mask entries of any other station (so
mask-excluded stations still serve as buddies); and sct's neighbour
filtering keeps exactly the Pass-flagged points, with no reference to the
mask (so mask-excluded stations still enter the boxes of others). -/
theorem C7_obs_to_check_frame :
    (∀ (ops : QOps) (data : List (Option ℚ)) (rtree : SpatialTree)
        (args : BuddyCheckArgs) (obs : Option (List Bool)) (i : Nat)
        (flags2 : List Flag),
      mask_at obs i = false →
      buddy_check ops data rtree args obs = Except.ok flags2 →
      flags2[i]? = (buddy_init_flags data)[i]?) ∧
    (∀ (ops : QOps) (data : List (Option ℚ)) (rtree : SpatialTree)
        (args : SctArgs) (obs : Option (List Bool)) (i : Nat)
        (flags2 : List Flag),
      mask_at obs i = false →
      sct ops data rtree args obs = Except.ok flags2 →
      flags2[i]? = (sct_init_flags data rtree.elevs)[i]?) ∧
    (∀ (ops : QOps) (data : List (Option ℚ)) (rtree : SpatialTree)
        (args : BuddyCheckArgs) (obs obs2 : Option (List Bool))
        (flags : List Flag) (i : Nat),
      mask_at obs i = mask_at obs2 i →
      buddy_station ops data rtree args obs flags i
        = buddy_station ops data rtree args obs2 flags i) ∧
    (∀ (neighbours : List TreePoint) (distances : List ℚ) (flags : List Flag)
        (p : TreePoint),
      neighbours.length = distances.length →
      (p ∈ (remove_flagged neighbours distances flags).1 ↔
        p ∈ neighbours ∧ flags.get? p.data = some Flag.Pass)) := by
  refine ⟨?_, ?_, ?_, ?_⟩
  · intro ops data rtree args obs i flags2 hmask hok
    unfold buddy_check at hok
    have hflags := Except.ok.inj hok
    subst hflags
    have hstep := buddy_loop_step ops data rtree args obs args.num_iterations
      (buddy_init_flags data) 0
    rcases hstep.2 i with h | ⟨hm, _, _⟩
    · exact h
    · rw [hmask] at hm
      exact absurd hm (by decide)
  · intro ops data rtree args obs i flags2 hmask hok
    unfold sct at hok
    cases hval : sct_validate data rtree args obs
    · rw [hval] at hok
      dsimp only at hok
      have hflags := Except.ok.inj hok
      subst hflags
      have hstep := sct_loop_step ops data rtree args obs args.num_iterations
        (sct_init_flags data rtree.elevs) (List.replicate data.length 0)
      rcases hstep.2 i with h | ⟨hm, _⟩
      · exact h
      · rw [hmask] at hm
        exact absurd hm (by decide)
    · rw [hval] at hok
      dsimp only at hok
      exact Except.noConfusion hok
  · intro ops data rtree args obs obs2 flags i hmask
    unfold buddy_station
    rw [hmask]
  · intro neighbours distances flags p hlen
    unfold remove_flagged
    rw [List.unzip_fst]
    constructor
    · intro hp
      obtain ⟨pd, hpd, hfst⟩ := List.mem_map.mp hp
      obtain ⟨hzip, hpass⟩ := List.mem_filter.mp hpd
      rw [decide_eq_true_eq] at hpass
      obtain ⟨hp1, _⟩ := List.of_mem_zip (by rw [show pd = (pd.1, pd.2) from rfl] at hzip; exact hzip)
      rw [← hfst]
      exact ⟨hp1, hpass⟩
    · rintro ⟨hmem, hpass⟩
      obtain ⟨d, hd⟩ := mem_zip_of_mem_left hlen hmem
      refine List.mem_map.mpr ⟨(p, d), List.mem_filter.mpr ⟨hd, ?_⟩, rfl⟩
      rw [decide_eq_true_eq]
      exact hpass

/-- Witness for C7 at concrete inputs: a masked-out station keeps its
initialization flag through both algorithms, the evaluation of a station is
unchanged under a different mask agreeing at that station, and a Pass
neighbour is kept by remove_flagged. -/
theorem C7_obs_to_check_frame_witness :
    (([Flag.Pass] : List Flag)[0]? = (buddy_init_flags [some 1])[0]?) ∧
    (([Flag.Pass, Flag.Pass] : List Flag)[0]?
      = (sct_init_flags [some 1, some 1] tree2.elevs)[0]?) ∧
    (buddy_station dummy_ops [some 1] tree1 buddy_args2 none [Flag.Pass] 0
      = buddy_station dummy_ops [some 1] tree1 buddy_args2 (some [true]) [Flag.Pass] 0) ∧
    (({ geom := ((0 : ℚ), (0 : ℚ), (0 : ℚ)), data := 0 } : TreePoint) ∈
        (remove_flagged [{ geom := (0, 0, 0), data := 0 }] [1] [Flag.Pass]).1 ↔
      ({ geom := ((0 : ℚ), (0 : ℚ), (0 : ℚ)), data := 0 } : TreePoint) ∈
        [({ geom := (0, 0, 0), data := 0 } : TreePoint)] ∧
      ([Flag.Pass] : List Flag).get? 0 = some Flag.Pass) :=
  ⟨C7_obs_to_check_frame.1 dummy_ops [some 1] tree1 buddy_args2 (some [false]) 0
      [Flag.Pass] (by decide) (by decide),
   C7_obs_to_check_frame.2.1 dummy_ops [some 1, some 1] tree2 sct_args_ok
      (some [false, false]) 0 [Flag.Pass, Flag.Pass] (by decide) (by decide),
   C7_obs_to_check_frame.2.2.1 dummy_ops [some 1] tree1 buddy_args2 none (some [true])
      [Flag.Pass] 0 (by decide),
   C7_obs_to_check_frame.2.2.2 [{ geom := (0, 0, 0), data := 0 }] [1] [Flag.Pass]
      { geom := (0, 0, 0), data := 0 } (by decide)⟩

/-- C3 amended: buddy_check performs at most num_iterations sweeps; when it
stops with iterations to spare, the terminating sweep flagged zero new
stations — the returned flags vector is a fixed point of the sweep; and
re-running with any iteration cap at least the number of sweeps actually
used returns identical flags.  (Termination is however not exactly at the
first sweep with zero new failures: the source compares the non-Pass total
against the previous delta, see the counterexample.) -/
theorem C3_amended_convergence :
    (∀ (ops : QOps) (data : List (Option ℚ)) (rtree : SpatialTree)
        (args : BuddyCheckArgs) (obs : Option (List Bool)),
      buddy_check_sweeps_used ops data rtree args obs ≤ args.num_iterations) ∧
    (∀ (ops : QOps) (data : List (Option ℚ)) (rtree : SpatialTree)
        (args : BuddyCheckArgs) (obs : Option (List Bool)) (flags2 : List Flag),
      buddy_check ops data rtree args obs = Except.ok flags2 →
      buddy_check_sweeps_used ops data rtree args obs < args.num_iterations →
      buddy_sweep ops data rtree args obs flags2 = flags2) ∧
    (∀ (ops : QOps) (data : List (Option ℚ)) (rtree : SpatialTree)
        (args : BuddyCheckArgs) (obs : Option (List Bool)) (cap : Nat),
      buddy_check_sweeps_used ops data rtree args obs < args.num_iterations →
      buddy_check_sweeps_used ops data rtree args obs ≤ cap →
      buddy_check ops data rtree { args with num_iterations := cap } obs
        = buddy_check ops data rtree args obs) := by
  have hsweep : ∀ (ops : QOps) (data : List (Option ℚ)) (rtree : SpatialTree)
      (args : BuddyCheckArgs) (obs : Option (List Bool)) (cap : Nat),
      buddy_sweep ops data rtree { args with num_iterations := cap } obs
        = buddy_sweep ops data rtree args obs := fun _ _ _ _ _ _ => rfl
  have hloop : ∀ (ops : QOps) (data : List (Option ℚ)) (rtree : SpatialTree)
      (args : BuddyCheckArgs) (obs : Option (List Bool)) (cap : Nat)
      (fuel : Nat) (flags : List Flag) (last : Nat),
      buddy_loop ops data rtree { args with num_iterations := cap } obs fuel flags last
        = buddy_loop ops data rtree args obs fuel flags last := by
    intro ops data rtree args obs cap fuel
    induction fuel with
    | zero => intro flags last; rfl
    | succ n ih =>
      intro flags last
      rw [buddy_loop_succ, buddy_loop_succ, hsweep]
      by_cases hc : count_non_pass (buddy_sweep ops data rtree args obs flags) - last = 0
      · rw [if_pos hc, if_pos hc]
      · rw [if_neg hc, if_neg hc, ih]
  refine ⟨?_, ?_, ?_⟩
  · intro ops data rtree args obs
    exact buddy_loop_sweeps_le ops data rtree args obs args.num_iterations _ _
  · intro ops data rtree args obs flags2 hok hlt
    unfold buddy_check at hok
    have hflags := Except.ok.inj hok
    subst hflags
    exact buddy_loop_break_fixed ops data rtree args obs args.num_iterations
      (buddy_init_flags data) 0 (Nat.zero_le _) hlt
  · intro ops data rtree args obs cap hlt hle
    unfold buddy_check
    rw [hloop]
    rw [buddy_loop_replay ops data rtree args obs args.num_iterations
      (buddy_init_flags data) 0 cap hlt hle]

/-- Witness for C3 amended at a concrete input (zero stations, cap 2: the
loop breaks after one sweep). -/
theorem C3_amended_convergence_witness :
    buddy_check_sweeps_used dummy_ops [] tree1 buddy_args2 none
        ≤ buddy_args2.num_iterations ∧
    buddy_sweep dummy_ops [] tree1 buddy_args2 none [] = [] ∧
    buddy_check dummy_ops [] tree1 { buddy_args2 with num_iterations := 5 } none
      = buddy_check dummy_ops [] tree1 buddy_args2 none :=
  ⟨C3_amended_convergence.1 dummy_ops [] tree1 buddy_args2 none,
   C3_amended_convergence.2.1 dummy_ops [] tree1 buddy_args2 none [] (by decide) (by decide),
   C3_amended_convergence.2.2 dummy_ops [] tree1 buddy_args2 none 5 (by decide) (by decide)⟩

/-- C4 amended: when every array-shaped input matches the station count and
any of the parameter-domain conditions the source actually checks is
violated (num_min, num_max, num_iterations, min_elev_diff,
min_horizontal_scale, vertical_scale, inner_radius, outer_radius out of
domain, or a Vec-variant eps2 with a nonpositive entry or Vec-variant
pos/neg with a negative entry), sct returns an InvalidArg error before any
iteration, producing no flags.  Single-variant pos/neg/eps2 values are not
validated (see the counterexample). -/
theorem C4_amended_validation :
    ∀ (ops : QOps) (data : List (Option ℚ)) (rtree : SpatialTree)
      (args : SctArgs) (obs : Option (List Bool)),
      vec_shape_bad args.pos data.length = false →
      vec_shape_bad args.neg data.length = false →
      vec_shape_bad args.eps2 data.length = false →
      obs_shape_bad obs data.length = false →
      rtree.points.length = data.length →
      (args.num_min < 2 ∨ args.num_max < args.num_min ∨ args.num_iterations < 1 ∨
        args.min_elev_diff ≤ 0 ∨ args.min_horizontal_scale ≤ 0 ∨
        args.vertical_scale ≤ 0 ∨ args.inner_radius < 0 ∨
        args.outer_radius < args.inner_radius ∨
        vec_has_nonpos args.eps2 = true ∨ vec_has_neg args.pos = true ∨
        vec_has_neg args.neg = true) →
      ∃ f r, sct ops data rtree args obs = Except.error (Error.InvalidArg f r) := by
  intro ops data rtree args obs hp hn he ho ht hviol
  suffices hval : ∃ f r, sct_validate data rtree args obs = some (Error.InvalidArg f r) by
    obtain ⟨f, r, hv⟩ := hval
    refine ⟨f, r, ?_⟩
    unfold sct
    rw [hv]
  unfold sct_validate
  rw [if_neg (by simp [ht])]
  rw [if_neg (by simp [hp])]
  by_cases hpv : vec_has_neg args.pos = true
  · rw [if_pos hpv]; exact ⟨_, _, rfl⟩
  · rw [if_neg hpv, if_neg (by simp [hn])]
    by_cases hnv : vec_has_neg args.neg = true
    · rw [if_pos hnv]; exact ⟨_, _, rfl⟩
    · rw [if_neg hnv, if_neg (by simp [he])]
      by_cases hev : vec_has_nonpos args.eps2 = true
      · rw [if_pos hev]; exact ⟨_, _, rfl⟩
      · rw [if_neg hev, if_neg (by simp [ho])]
        by_cases h1 : args.num_min < 2
        · rw [if_pos h1]; exact ⟨_, _, rfl⟩
        · rw [if_neg h1]
          by_cases h2 : args.num_max < args.num_min
          · rw [if_pos h2]; exact ⟨_, _, rfl⟩
          · rw [if_neg h2]
            by_cases h3 : args.num_iterations < 1
            · rw [if_pos h3]; exact ⟨_, _, rfl⟩
            · rw [if_neg h3]
              by_cases h4 : args.min_elev_diff ≤ 0
              · rw [if_pos h4]; exact ⟨_, _, rfl⟩
              · rw [if_neg h4]
                by_cases h5 : args.min_horizontal_scale ≤ 0
                · rw [if_pos h5]; exact ⟨_, _, rfl⟩
                · rw [if_neg h5]
                  by_cases h6 : args.vertical_scale ≤ 0
                  · rw [if_pos h6]; exact ⟨_, _, rfl⟩
                  · rw [if_neg h6]
                    by_cases h7 : args.inner_radius < 0
                    · rw [if_pos h7]; exact ⟨_, _, rfl⟩
                    · rw [if_neg h7]
                      by_cases h8 : args.outer_radius < args.inner_radius
                      · rw [if_pos h8]; exact ⟨_, _, rfl⟩
                      · exfalso
                        rcases hviol with hv | hv | hv | hv | hv | hv | hv | hv | hv | hv | hv
                        · exact h1 hv
                        · exact h2 hv
                        · exact h3 hv
                        · exact h4 hv
                        · exact h5 hv
                        · exact h6 hv
                        · exact h7 hv
                        · exact h8 hv
                        · exact hev hv
                        · exact hpv hv
                        · exact hnv hv

/-- Witness for C4 amended at a concrete input: num_min = 0 is rejected with
an InvalidArg error. -/
theorem C4_amended_validation_witness :
    ∃ f r, sct dummy_ops [] tree0 { sct_args_ok with num_min := 0 } none
      = Except.error (Error.InvalidArg f r) :=
  C4_amended_validation dummy_ops [] tree0 { sct_args_ok with num_min := 0 } none
    (by decide) (by decide) (by decide) (by decide) (by decide) (Or.inl (by decide))

/-- The value produced by clamping to [0, 1] lies in [0, 1]. -/
theorem clamp01_mem (x : ℝ) :
    0 ≤ (if x < 0 then (0 : ℝ) else if x > 1 then 1 else x) ∧
      (if x < 0 then (0 : ℝ) else if x > 1 then 1 else x) ≤ 1 := by
  split_ifs with hx hy
  · exact ⟨le_refl 0, by norm_num⟩
  · exact ⟨by norm_num, le_refl 1⟩
  · exact ⟨le_of_not_lt hx, le_of_not_lt hy⟩

/-- C9 counterexample: the source clamps the law-of-cosines ratio to [0, 1],
not to [-1, 1] as the claim states.  At the antipodal pair (0, 0) and
(0, 180) the ratio is -1: the source computes arccos(0)·R = (π/2)·6371, while
the [-1, 1]-clamping described by the specification computes
arccos(-1)·R = π·6371, and the two differ. -/
theorem C9_counterexample :
    calc_distance_real 0 0 0 180 = Except.ok (Real.pi / 2 * 6371) ∧
    calc_distance_spec_clamp 0 0 0 180 = Except.ok (Real.pi * 6371) ∧
    Real.pi / 2 * 6371 ≠ Real.pi * 6371 := by
  have h180 : (180 : ℝ) * Real.pi / 180 = Real.pi := by ring
  have h0 : (0 : ℝ) * Real.pi / 180 = 0 := by ring
  refine ⟨?_, ?_, ?_⟩
  · unfold calc_distance_real
    rw [if_neg (by norm_num), if_neg (by norm_num)]
    dsimp only
    rw [h180, h0]
    norm_num [Real.cos_pi, Real.sin_pi, Real.cos_zero, Real.sin_zero, Real.arccos_zero]
  · unfold calc_distance_spec_clamp
    rw [if_neg (by norm_num), if_neg (by norm_num)]
    dsimp only
    rw [h180, h0]
    norm_num [Real.cos_pi, Real.sin_pi, Real.cos_zero, Real.sin_zero, Real.arccos_neg_one]
  · intro h
    have hpi := Real.pi_pos
    nlinarith

/-- C9 amended: for all in-range inputs the distance is well-defined (an Ok
value, with no acos domain error possible since the clamped ratio lies in
[0, 1] which is inside acos's domain [-1, 1]), is nonnegative — but because
the clamp is to [0, 1] rather than [-1, 1], every computed distance is also
capped at a quarter great circle, (π/2)·6371. -/
theorem C9_amended_clamped_distance :
    ∀ (lat1 lon1 lat2 lon2 : ℝ),
      |lat1| ≤ 90 → |lat2| ≤ 90 → |lon1| ≤ 360 → |lon2| ≤ 360 →
      ∃ d, calc_distance_real lat1 lon1 lat2 lon2 = Except.ok d ∧
        0 ≤ d ∧ d ≤ Real.pi / 2 * 6371 := by
  intro lat1 lon1 lat2 lon2 h1 h2 h3 h4
  unfold calc_distance_real
  rw [if_neg (by push_neg; exact ⟨h1, h2, h3, h4⟩)]
  by_cases heq : lat1 = lat2 ∧ lon1 = lon2
  · rw [if_pos heq]
    refine ⟨0, rfl, le_refl 0, ?_⟩
    have hpi := Real.pi_pos
    nlinarith
  · rw [if_neg heq]
    dsimp only
    refine ⟨_, rfl, ?_, ?_⟩
    · have harc := Real.arccos_nonneg (if (Real.cos (lat1 * Real.pi / 180) *
        Real.cos (lon1 * Real.pi / 180) * Real.cos (lat2 * Real.pi / 180) *
        Real.cos (lon2 * Real.pi / 180) + Real.cos (lat1 * Real.pi / 180) *
        Real.sin (lon1 * Real.pi / 180) * Real.cos (lat2 * Real.pi / 180) *
        Real.sin (lon2 * Real.pi / 180) + Real.sin (lat1 * Real.pi / 180) *
        Real.sin (lat2 * Real.pi / 180)) < 0 then (0 : ℝ) else
        if (Real.cos (lat1 * Real.pi / 180) * Real.cos (lon1 * Real.pi / 180) *
        Real.cos (lat2 * Real.pi / 180) * Real.cos (lon2 * Real.pi / 180) +
        Real.cos (lat1 * Real.pi / 180) * Real.sin (lon1 * Real.pi / 180) *
        Real.cos (lat2 * Real.pi / 180) * Real.sin (lon2 * Real.pi / 180) +
        Real.sin (lat1 * Real.pi / 180) * Real.sin (lat2 * Real.pi / 180)) > 1
        then 1 else (Real.cos (lat1 * Real.pi / 180) *
        Real.cos (lon1 * Real.pi / 180) * Real.cos (lat2 * Real.pi / 180) *
        Real.cos (lon2 * Real.pi / 180) + Real.cos (lat1 * Real.pi / 180) *
        Real.sin (lon1 * Real.pi / 180) * Real.cos (lat2 * Real.pi / 180) *
        Real.sin (lon2 * Real.pi / 180) + Real.sin (lat1 * Real.pi / 180) *
        Real.sin (lat2 * Real.pi / 180)))
      positivity
    · have hmem := clamp01_mem (Real.cos (lat1 * Real.pi / 180) *
        Real.cos (lon1 * Real.pi / 180) * Real.cos (lat2 * Real.pi / 180) *
        Real.cos (lon2 * Real.pi / 180) + Real.cos (lat1 * Real.pi / 180) *
        Real.sin (lon1 * Real.pi / 180) * Real.cos (lat2 * Real.pi / 180) *
        Real.sin (lon2 * Real.pi / 180) + Real.sin (lat1 * Real.pi / 180) *
        Real.sin (lat2 * Real.pi / 180))
      have harc := Real.arccos_le_pi_div_two.mpr hmem.1
      exact mul_le_mul_of_nonneg_right harc (by norm_num)

/-- Witness for C9 amended at a concrete in-range input. -/
theorem C9_amended_clamped_distance_witness :
    ∃ d, calc_distance_real 10 10 20 20 = Except.ok d ∧
      0 ≤ d ∧ d ≤ Real.pi / 2 * 6371 :=
  C9_amended_clamped_distance 10 10 20 20 (by norm_num) (by norm_num)
    (by norm_num) (by norm_num)

/-- C8: compute_quantile equals the specification's description — sort the
valid subset ascending and linearly interpolate between the values at ranks
floor(q*(N-1)) and ceil(q*(N-1)) by the fractional part of the rank — for
every nonempty input and q in [0, 1]; and in particular
quantile(0.5, [1,2,3,4]) = 2.5. -/
theorem C8_quantile_interpolation :
    (∀ (q : ℚ) (values : List ℚ), values ≠ [] → 0 ≤ q → q ≤ 1 →
      compute_quantile q values = quantile_spec q values) ∧
    compute_quantile (1/2) [1, 2, 3, 4] = 5/2 := by
  constructor
  · intro q values hne hq0 hq1
    unfold compute_quantile quantile_spec
    dsimp only
    generalize sort_total (values.filter (fun x => is_valid x)) = s
    generalize hm : s.length - 1 = m
    by_cases h : Int.toNat ⌊q * (m : ℚ)⌋ = Int.toNat ⌈q * (m : ℚ)⌉
    · rw [if_pos h, ← h]
      ring
    · rw [if_neg h]
      have hx0 : 0 ≤ q * (m : ℚ) := mul_nonneg hq0 (by positivity)
      have hfl0 : 0 ≤ ⌊q * (m : ℚ)⌋ := Int.floor_nonneg.mpr hx0
      have hUeq : ⌈q * (m : ℚ)⌉ = ⌊q * (m : ℚ)⌋ + 1 := by
        have hle := Int.floor_le_ceil (q * (m : ℚ))
        have hle2 := Int.ceil_le_floor_add_one (q * (m : ℚ))
        have hne2 : ⌊q * (m : ℚ)⌋ ≠ ⌈q * (m : ℚ)⌉ := by
          intro hcon
          exact h (by rw [hcon])
        omega
      have hmne : m ≠ 0 := by
        intro hm0
        subst hm0
        apply h
        norm_num
      have hUnat : Int.toNat ⌈q * (m : ℚ)⌉ = Int.toNat ⌊q * (m : ℚ)⌋ + 1 := by omega
      rw [hUnat]
      have hmq : (m : ℚ) ≠ 0 := Nat.cast_ne_zero.mpr hmne
      congr 1
      congr 1
      push_cast
      field_simp
  · unfold compute_quantile
    rw [show sort_total (List.filter (fun x => is_valid x) [1, 2, 3, 4]) = [1, 2, 3, 4] from
      by decide]
    have hcl : ⌈(3 : ℚ) / 2⌉ = 2 := by
      rw [Int.ceil_eq_iff]
      norm_num
    dsimp only
    norm_num [hcl]
    norm_num [show Int.toNat 2 = 2 from rfl]

/-- Witness for C8 at the specification's own scenario input. -/
theorem C8_quantile_interpolation_witness :
    compute_quantile (1/2) [1, 2, 3, 4] = quantile_spec (1/2) [1, 2, 3, 4] :=
  C8_quantile_interpolation.1 (1/2) [1, 2, 3, 4] (by decide) (by norm_num) (by norm_num)

end Olympian
